import Mathlib

/-!
Verification of the UnityPlan bot (src/bot.py): a shallow embedding of its
goal store (SQLite table `goals`), its OpenAI completion wrapper, and its
aiogram command handlers, together with proofs of the specified properties.

Conventions of the embedding:
* The SQLite table is a `DB`: a list of rows plus the AUTOINCREMENT counter.
  Rows are appended in insertion order, so ids are strictly increasing along
  the list (`WF`), which is what `INTEGER PRIMARY KEY AUTOINCREMENT` gives.
* `cursor.rowcount` of an UPDATE/DELETE is the number of rows matched by the
  WHERE clause.
* `datetime.utcnow()` is an explicit `now : Nat` parameter.
* The OpenAI SDK call is an oracle `remote : CompletionRequest → Except Unit
  String`; `Except.error` stands for any exception raised by the call or by
  extracting `choices[0].message.content` from a malformed response.
* Each aiogram handler is a function returning a `TurnResult`: the database
  after the turn, the replies sent, and the completion requests issued.
-/

namespace UnityPlan

/-- A row of the `goals` table (see `init_db` in src/bot.py):
`id INTEGER PRIMARY KEY AUTOINCREMENT, user_id, text, is_done, created_at`. -/
structure Goal where
  id : Nat
  user_id : Int
  text : String
  is_done : Bool
  created_at : Nat
deriving Repr, DecidableEq

/-- The persistent state: the rows of the `goals` table in insertion order,
plus the AUTOINCREMENT counter that assigns the next id. -/
structure DB where
  goals : List Goal
  nextId : Nat
deriving Repr, DecidableEq

/-- Well-formedness delivered by `INTEGER PRIMARY KEY AUTOINCREMENT`:
ids strictly increase in insertion order (hence are unique), and every
assigned id is below the counter. -/
def WF (db : DB) : Prop :=
  db.goals.Pairwise (fun a b => a.id < b.id) ∧ ∀ g ∈ db.goals, g.id < db.nextId

instance (db : DB) : Decidable (WF db) := by unfold WF; infer_instance

/-- Function `add_goal` (src/bot.py:44-51):
`INSERT INTO goals(user_id, text, is_done, created_at) VALUES (?, ?, 0, ?)`,
returning `cur.lastrowid`. -/
def add_goal (db : DB) (user_id : Int) (text : String) (now : Nat) : DB × Nat :=
  (⟨db.goals ++ [⟨db.nextId, user_id, text, false, now⟩], db.nextId + 1⟩, db.nextId)

/-- The WHERE clause `id=? AND user_id=?` shared by `mark_done` and
`delete_goal`. -/
def matchKey (user_id : Int) (goal_id : Nat) (g : Goal) : Bool :=
  g.id == goal_id && g.user_id == user_id

/-- Insert a goal into a list kept in descending id order (helper realising
SQL `ORDER BY id DESC`). -/
def insertByIdDesc (g : Goal) : List Goal → List Goal
  | [] => [g]
  | h :: t => if h.id < g.id then g :: h :: t else h :: insertByIdDesc g t

/-- Sort a list of goals by id descending (SQL `ORDER BY id DESC`). -/
def sortByIdDesc : List Goal → List Goal
  | [] => []
  | h :: t => insertByIdDesc h (sortByIdDesc t)

/-- Function `list_goals` (src/bot.py:53-59):
`SELECT id, text, is_done FROM goals WHERE user_id=? ORDER BY id DESC`. -/
def list_goals (db : DB) (user_id : Int) : List (Nat × String × Bool) :=
  (sortByIdDesc (db.goals.filter (fun g => g.user_id == user_id))).map
    (fun g => (g.id, g.text, g.is_done))

/-- Function `mark_done` (src/bot.py:61-68):
`UPDATE goals SET is_done=1 WHERE id=? AND user_id=?`, returning
`cur.rowcount`. -/
def mark_done (db : DB) (user_id : Int) (goal_id : Nat) : DB × Nat :=
  (⟨db.goals.map (fun g =>
      if matchKey user_id goal_id g then { g with is_done := true } else g),
    db.nextId⟩,
   (db.goals.filter (matchKey user_id goal_id)).length)

/-- Function `delete_goal` (src/bot.py:70-77):
`DELETE FROM goals WHERE id=? AND user_id=?`, returning `cur.rowcount`. -/
def delete_goal (db : DB) (user_id : Int) (goal_id : Nat) : DB × Nat :=
  (⟨db.goals.filter (fun g => !matchKey user_id goal_id g), db.nextId⟩,
   (db.goals.filter (matchKey user_id goal_id)).length)

/-- The store operations, as one type, for frame properties quantifying over
every operation. -/
inductive StoreOp where
  | add (user_id : Int) (text : String) (now : Nat)
  | mark (user_id : Int) (goal_id : Nat)
  | del (user_id : Int) (goal_id : Nat)
deriving Repr, DecidableEq

def applyOp (db : DB) : StoreOp → DB
  | .add u t n => (add_goal db u t n).1
  | .mark u gid => (mark_done db u gid).1
  | .del u gid => (delete_goal db u gid).1

/-! ## Character-level string utilities

Kernel-friendly replacements for `String.trim`, `String.toNat?`,
`String.isPrefixOf` and substring search; each mirrors the corresponding
Python operation used by src/bot.py. -/

/-- Drop leading whitespace characters. -/
def dropWs : List Char → List Char
  | [] => []
  | c :: cs => if c.isWhitespace then dropWs cs else c :: cs

/-- Python `str.strip()` on a char list: drop whitespace at both ends. -/
def stripChars (cs : List Char) : List Char :=
  (dropWs (dropWs cs).reverse).reverse

/-- Python `str.strip()`. -/
def stripStr (s : String) : String := String.mk (stripChars s.data)

/-- Split a char list at the first whitespace character. -/
def breakAtWs : List Char → List Char × List Char
  | [] => ([], [])
  | c :: cs =>
    if c.isWhitespace then ([], c :: cs)
    else
      let p := breakAtWs cs
      (c :: p.1, p.2)

/-- Is `pat` a prefix of `s` (on characters)? -/
def isPrefixChars : List Char → List Char → Bool
  | [], _ => true
  | _ :: _, [] => false
  | a :: as, b :: bs => a == b && isPrefixChars as bs

/-- Does `pat` occur in `s` as a contiguous run (on characters)? -/
def containsChars (pat : List Char) : List Char → Bool
  | [] => isPrefixChars pat []
  | c :: cs => isPrefixChars pat (c :: cs) || containsChars pat cs

/-- Substring containment on strings. -/
def containsStr (s pat : String) : Bool := containsChars pat.data s.data

/-- Lower-case a string character-wise (for case-insensitive containment). -/
def lowerStr (s : String) : String := String.mk (s.data.map Char.toLower)

/-- Value of a Unicode character of Numeric_Type=Decimal — the characters
Python `int()` parses as digits — for the decimal blocks this development
models: the ASCII digits and the Arabic-Indic digits U+0660-U+0669 (other
decimal scripts behave like the latter block). `none` for every other
character. -/
def decimalVal (c : Char) : Option Nat :=
  if c.isDigit then some (c.toNat - 48)
  else if 0x660 ≤ c.toNat ∧ c.toNat ≤ 0x669 then some (c.toNat - 0x660)
  else none

/-- Characters of Numeric_Type=Digit that are not Decimal — accepted by
Python `str.isdigit` but rejected by `int()` — for the blocks this
development models: the Latin-1 superscripts ¹ ² ³ and the
superscript/subscript digit block. -/
def isDigitNotDecimal (c : Char) : Bool :=
  c == '¹' || c == '²' || c == '³' ||
  c == '⁰' || c == '⁴' || c == '⁵' || c == '⁶' || c == '⁷' || c == '⁸' ||
  c == '⁹' || c == '₀' || c == '₁' || c == '₂' || c == '₃' || c == '₄' ||
  c == '₅' || c == '₆' || c == '₇' || c == '₈' || c == '₉'

/-- Python `str.isdigit` on one character: Numeric_Type Decimal or Digit. -/
def pyIsDigitChar (c : Char) : Bool :=
  (decimalVal c).isSome || isDigitNotDecimal c

/-- Python `str.isdigit`: non-empty and every character a digit. -/
def pyIsDigit (s : String) : Bool :=
  !(s == "") && s.data.all pyIsDigitChar

/-- Python `int(s)` on a string that passed `str.isdigit`: the base-10 value
when every character is a Decimal digit, `none` (ValueError) otherwise —
e.g. `int` fails on the superscript "²" although `str.isdigit` accepted it. -/
def pyInt (s : String) : Option Nat :=
  if s == "" then none
  else s.data.foldl (fun acc c =>
    match acc, decimalVal c with
    | some n, some d => some (n * 10 + d)
    | _, _ => none) (some 0)

/-! ## Completion client (`ask_openai`, src/bot.py:89-106) -/

/-- One element of the `messages` array of a chat-completion request. -/
structure ChatMessage where
  role : String
  content : String
deriving Repr, DecidableEq

/-- The request `client.chat.completions.create(...)` is invoked with.
`temperature`/`max_tokens` are `none` when the call site leaves them at the
API default. -/
structure CompletionRequest where
  model : String
  messages : List ChatMessage
  temperature : Option Rat
  max_tokens : Option Nat
deriving Repr, DecidableEq

/-- The system instruction of `ask_openai` (src/bot.py:97). -/
def systemPrompt : String :=
  "You are GPT-5 Thinking, a helpful planning assistant for productivity, goals and daily focus. Answer concisely in Ukrainian unless asked otherwise."

/-- The request built by `ask_openai` (src/bot.py:94-102): model
`gpt-4o-mini`, a system + user message pair, `temperature=0.3`,
`max_tokens=600`. -/
def buildRequest (prompt : String) : CompletionRequest :=
  { model := "gpt-4o-mini"
    messages := [⟨"system", systemPrompt⟩, ⟨"user", prompt⟩]
    temperature := some ((3 : Rat) / 10)
    max_tokens := some 600 }

/-- The fixed apology returned on any failure (src/bot.py:106). -/
def apology : String := "⚠️ Вибач, зараз не вдається отримати відповідь від AI."

/-- Function `ask_openai` (src/bot.py:89-106): issue the request; on success return
`choices[0].message.content.strip()`, on any exception return the fixed
apology. The oracle `remote` bundles the remote call together with the
response extraction, so `Except.error` covers network errors, API errors and
malformed responses alike. -/
def ask_openai (remote : CompletionRequest → Except Unit String)
    (prompt : String) : String :=
  match remote (buildRequest prompt) with
  | .ok content => stripStr content
  | .error _ => apology

/-! ## Command handlers (src/bot.py:109-181)

Each handler yields a `TurnResult`. The aiogram `CommandObject.args`
(`text.split(maxsplit=1)`) is modelled by `commandArgs`. -/

/-- Outcome of one handler invocation: database afterwards, replies sent (in
order), completion requests issued. -/
structure TurnResult where
  db : DB
  replies : List String
  requests : List CompletionRequest
deriving Repr, DecidableEq

instance : DecidableEq (Except Unit TurnResult) := fun a b =>
  match a, b with
  | .ok x, .ok y =>
    match decEq x y with
    | isTrue h => isTrue (h ▸ rfl)
    | isFalse h => isFalse (fun hc => h (by cases hc; rfl))
  | .error x, .error y => isTrue (by cases x; cases y; rfl)
  | .ok _, .error _ => isFalse (fun hc => Except.noConfusion hc)
  | .error _, .ok _ => isFalse (fun hc => Except.noConfusion hc)

/-- The aiogram `CommandObject.args`: the text after the command word
(`text.split(maxsplit=1)`), `none` when nothing but whitespace follows. -/
def commandArgs (text : String) : Option String :=
  match dropWs (breakAtWs text.data).2 with
  | [] => none
  | cs => some (String.mk cs)

def startText : String :=
  "👋 Привіт, я UnityPlan Bot з AI!\nКоманди:\n• /ask твоє_питання — запит до AI\n• /addgoal Текст цілі — додати\n• /goals — список цілей\n• /done ID — позначити виконаною\n• /del ID — видалити\n"

def askUsage : String := "Напиши так: `/ask Допоможи скласти план на день`"

def thinkingNotice : String := "🧠 Думаю над відповіддю…"

def addgoalUsage : String := "Введи так: `/addgoal Купити BMW S1000RR`"

def noGoalsHint : String := "Поки що немає цілей. Додай через `/addgoal ...`"

def doneUsage : String := "Введи так: `/done 12` (де 12 — ID цілі)"

def delUsage : String := "Введи так: `/del 12` (де 12 — ID цілі)"

/-- Handler `cmd_ask` (src/bot.py:122-130). -/
def cmd_ask (remote : CompletionRequest → Except Unit String) (db : DB)
    (args : Option String) : TurnResult :=
  let question := stripStr (args.getD "")
  if question = "" then ⟨db, [askUsage], []⟩
  else ⟨db, [thinkingNotice, ask_openai remote question], [buildRequest question]⟩

/-- Handler `cmd_addgoal` (src/bot.py:132-139). -/
def cmd_addgoal (db : DB) (user_id : Int) (args : Option String)
    (now : Nat) : TurnResult :=
  let text := stripStr (args.getD "")
  if text = "" then ⟨db, [addgoalUsage], []⟩
  else
    let r := add_goal db user_id text now
    ⟨r.1, ["✅ Ціль додано (ID: " ++ toString r.2 ++ ")"], []⟩

/-- Rendering of one `/goals` line (src/bot.py:148-150). -/
def renderRow (row : Nat × String × Bool) : String :=
  (if row.2.2 then "✅" else "⏳") ++ " *" ++ toString row.1 ++ "*. " ++ row.2.1

/-- Handler `cmd_goals` (src/bot.py:141-151). -/
def cmd_goals (db : DB) (user_id : Int) : TurnResult :=
  let rows := list_goals db user_id
  if rows.isEmpty then ⟨db, [noGoalsHint], []⟩
  else ⟨db, [String.intercalate "\n" (rows.map renderRow)], []⟩

/-- Handler `cmd_done` (src/bot.py:153-159).  The guard is Python
`str.isdigit`; when it passes, `int(args)` can still raise ValueError (on
Digit-class, non-Decimal characters such as "²"), and the handler does not
catch it: that outcome is `Except.error`, the exception escaping to the
dispatcher. -/
def cmd_done (db : DB) (user_id : Int) (args : Option String) :
    Except Unit TurnResult :=
  if !pyIsDigit (args.getD "") then .ok ⟨db, [doneUsage], []⟩
  else
    match pyInt (args.getD "") with
    | some n =>
      let r := mark_done db user_id n
      .ok ⟨r.1, [if r.2 != 0 then "✅ Готово!" else "❗️Не знайшов таку ціль."], []⟩
    | none => .error ()

/-- Handler `cmd_del` (src/bot.py:161-167), with the same uncaught
ValueError path as `cmd_done`. -/
def cmd_del (db : DB) (user_id : Int) (args : Option String) :
    Except Unit TurnResult :=
  if !pyIsDigit (args.getD "") then .ok ⟨db, [delUsage], []⟩
  else
    match pyInt (args.getD "") with
    | some n =>
      let r := delete_goal db user_id n
      .ok ⟨r.1, [if r.2 != 0 then "🗑 Видалено." else "❗️Не знайшов таку ціль."], []⟩
    | none => .error ()

/-- An inbound chat message: the id of the sender and the text. -/
structure Msg where
  from_user : Int
  text : String
deriving Repr, DecidableEq

/-- Handler `handle_buttons` (src/bot.py:170-181), the catch-all. -/
def handle_buttons (db : DB) (m : Msg) : TurnResult :=
  if m.text == "🧠 Запитати AI" then
    ⟨db, ["Напиши команду у форматі: `/ask Твоє запитання`"], []⟩
  else if m.text == "🎯 Мої цілі" then cmd_goals db m.from_user
  else if m.text == "🚀 Новий челендж" then
    ⟨db, ["(Тут пізніше зробимо майстер створення челенджу)"], []⟩
  else if m.text == "📅 План на сьогодні" then
    ⟨db, ["(Тут пізніше підключимо план на день)"], []⟩
  else ⟨db, ["Вибери дію з меню 👇"], []⟩

/-! ## The dead trailing block (src/bot.py:191-218) -/

/-- The system instruction of the trailing `ask_ai` handler (src/bot.py:209). -/
def systemPrompt2 : String :=
  "Ти — корисний асистент UnityPlan, який допомагає людям з цілями, планами і мотивацією."

/-- The request built by the trailing `ask_ai` handler (src/bot.py:206-212):
model `gpt-3.5-turbo`, no explicit temperature or max_tokens. -/
def buildRequest2 (query : String) : CompletionRequest :=
  { model := "gpt-3.5-turbo"
    messages := [⟨"system", systemPrompt2⟩, ⟨"user", query⟩]
    temperature := none
    max_tokens := none }

/-- Handler `ask_ai` (src/bot.py:196-218): the duplicated trailing `/ask` registration. -/
def ask_ai (remote : CompletionRequest → Except Unit String) (db : DB)
    (m : Msg) : TurnResult :=
  let query := stripStr (m.text.replace "/ask" "")
  if query = "" then ⟨db, ["❓ Напиши запит у форматі: `/ask твоє_питання`"], []⟩
  else
    match remote (buildRequest2 query) with
    | .ok ans =>
      ⟨db, ["🤖 Думаю над відповіддю...", "🧠 Відповідь від AI:\n" ++ ans],
       [buildRequest2 query]⟩
    | .error _ =>
      ⟨db, ["🤖 Думаю над відповіддю...", "⚠️ Виникла помилка при зверненні до AI."],
       [buildRequest2 query]⟩

/-! ## Dispatch (aiogram registration order) -/

/-- The handlers of the program, tagged, in registration order. -/
inductive HandlerTag where
  | start | ask | addgoal | goals | done | del | buttons | ask2
deriving Repr, DecidableEq

/-- The aiogram `Command("c")` filter: the text is `/c` or starts with `/c `
followed by arguments. -/
def matchesCommand (c : String) (text : String) : Bool :=
  text == "/" ++ c || isPrefixChars ("/" ++ c ++ " ").data text.data

/-- The filter attached to each registered handler; `@dp.message()` with no
filter (`handle_buttons`) matches every message. -/
def filterOf : HandlerTag → String → Bool
  | .start, t => matchesCommand "start" t
  | .ask, t => matchesCommand "ask" t
  | .addgoal, t => matchesCommand "addgoal" t
  | .goals, t => matchesCommand "goals" t
  | .done, t => matchesCommand "done" t
  | .del, t => matchesCommand "del" t
  | .buttons, _ => true
  | .ask2, t => matchesCommand "ask" t

/-- Run the handler named by a tag on a message; `Except.error` is an
exception escaping the handler to the dispatcher (possible only on the
uncaught ValueError path of `/done` and `/del`). -/
def runHandler (remote : CompletionRequest → Except Unit String)
    (tag : HandlerTag) (m : Msg) (db : DB) (now : Nat) :
    Except Unit TurnResult :=
  match tag with
  | .start => .ok ⟨db, [startText], []⟩
  | .ask => .ok (cmd_ask remote db (commandArgs m.text))
  | .addgoal => .ok (cmd_addgoal db m.from_user (commandArgs m.text) now)
  | .goals => .ok (cmd_goals db m.from_user)
  | .done => cmd_done db m.from_user (commandArgs m.text)
  | .del => cmd_del db m.from_user (commandArgs m.text)
  | .buttons => .ok (handle_buttons db m)
  | .ask2 => .ok (ask_ai remote db m)

/-- aiogram dispatch: the first registered handler whose filter matches. -/
def dispatch (hs : List HandlerTag) (text : String) : Option HandlerTag :=
  hs.find? (fun h => filterOf h text)

/-- One inbound message processed against a handler list. -/
def step (hs : List HandlerTag) (remote : CompletionRequest → Except Unit String)
    (m : Msg) (db : DB) (now : Nat) : Except Unit TurnResult :=
  match dispatch hs m.text with
  | some h => runHandler remote h m db now
  | none => .ok ⟨db, [], []⟩

/-- All handlers of src/bot.py in registration order, the trailing duplicate
`ask_ai` included. -/
def registeredHandlers : List HandlerTag :=
  [.start, .ask, .addgoal, .goals, .done, .del, .buttons, .ask2]

/-- The same program with the dead trailing block removed. -/
def handlersWithoutDead : List HandlerTag :=
  [.start, .ask, .addgoal, .goals, .done, .del, .buttons]

/-! ## Helper lemmas about the store -/

/-- Unfolding of the WHERE clause `id=? AND user_id=?`. -/
lemma matchKey_eq_true {u : Int} {gid : Nat} {g : Goal} :
    matchKey u gid g = true ↔ g.id = gid ∧ g.user_id = u := by
  simp [matchKey]

/-- In a list with strictly increasing ids, an id determines the row. -/
lemma mem_id_inj {l : List Goal} (hp : l.Pairwise (fun a b => a.id < b.id))
    {g g' : Goal} (hg : g ∈ l) (hg' : g' ∈ l) (h : g'.id = g.id) : g' = g := by
  induction l with
  | nil => cases hg
  | cons a t ih =>
    rw [List.pairwise_cons] at hp
    rcases List.mem_cons.mp hg with hga | hgt <;>
      rcases List.mem_cons.mp hg' with hga' | hgt'
    · rw [hga, hga']
    · subst hga
      exact absurd h (Nat.ne_of_gt (hp.1 g' hgt'))
    · subst hga'
      exact absurd h (Nat.ne_of_lt (hp.1 g hgt))
    · exact ih hp.2 hgt hgt'

/-- With strictly increasing ids, the WHERE clause `id=? AND user_id=?`
matches at most one row: the length of the filter is 1 when a match exists,
0 otherwise. -/
lemma filter_matchKey_length {l : List Goal}
    (hp : l.Pairwise (fun a b => a.id < b.id)) (u : Int) (gid : Nat) :
    (l.filter (matchKey u gid)).length
      = if l.any (matchKey u gid) then 1 else 0 := by
  induction l with
  | nil => rfl
  | cons a t ih =>
    rw [List.pairwise_cons] at hp
    by_cases ha : matchKey u gid a
    · have hgid : a.id = gid := (matchKey_eq_true.mp ha).1
      have hnone : t.filter (matchKey u gid) = [] := by
        rw [List.filter_eq_nil_iff]
        intro b hb hmb
        have hbid : b.id = gid := (matchKey_eq_true.mp hmb).1
        exact absurd (hbid.trans hgid.symm) (Nat.ne_of_gt (hp.1 b hb))
      simp [List.filter_cons, List.any_cons, ha, hnone]
    · simp only [List.filter_cons, List.any_cons, ha, Bool.false_or, if_false,
        cond_false]
      exact ih hp.2

/-- Insertion via `insertByIdDesc` appends at the end when every element of the list has a
larger-or-equal id. -/
lemma insertByIdDesc_append {l : List Goal} {g : Goal}
    (h : ∀ x ∈ l, g.id ≤ x.id) : insertByIdDesc g l = l ++ [g] := by
  induction l with
  | nil => rfl
  | cons a t ih =>
    have ha : ¬ a.id < g.id := Nat.not_lt.mpr (h a (List.mem_cons_self a t))
    simp only [insertByIdDesc, if_neg ha, List.cons_append, List.cons.injEq,
      true_and]
    exact ih (fun x hx => h x (List.mem_cons_of_mem a hx))

/-- Sorting by id descending a list whose ids already increase along the
list is just reversal. -/
lemma sortByIdDesc_of_ascending {l : List Goal}
    (hp : l.Pairwise (fun a b => a.id < b.id)) :
    sortByIdDesc l = l.reverse := by
  induction l with
  | nil => rfl
  | cons a t ih =>
    rw [List.pairwise_cons] at hp
    have : sortByIdDesc (a :: t) = insertByIdDesc a (sortByIdDesc t) := rfl
    rw [this, ih hp.2, insertByIdDesc_append, List.reverse_cons]
    intro x hx
    exact Nat.le_of_lt (hp.1 x (List.mem_reverse.mp hx))

/-- Operation `add_goal` preserves well-formedness. -/
lemma WF_add_goal {db : DB} (h : WF db) (u : Int) (t : String) (n : Nat) :
    WF (add_goal db u t n).1 := by
  obtain ⟨hp, hb⟩ := h
  constructor
  · show List.Pairwise _ (db.goals ++ [_])
    rw [List.pairwise_append]
    exact ⟨hp, List.pairwise_singleton _ _,
      fun a ha b hb' => by
        rcases List.mem_singleton.mp hb' with rfl
        exact hb a ha⟩
  · intro g hg
    rcases List.mem_append.mp hg with hg | hg
    · exact Nat.lt_succ_of_lt (hb g hg)
    · rcases List.mem_singleton.mp hg with rfl
      exact Nat.lt_succ_self _

/-- The row update applied by `mark_done` to each matched row. -/
def setDone (u : Int) (gid : Nat) (g : Goal) : Goal :=
  if matchKey u gid g then { g with is_done := true } else g

lemma mark_done_goals (db : DB) (u : Int) (gid : Nat) :
    (mark_done db u gid).1.goals = db.goals.map (setDone u gid) := rfl

@[simp] lemma setDone_id (u : Int) (gid : Nat) (g : Goal) :
    (setDone u gid g).id = g.id := by
  unfold setDone; split <;> rfl

@[simp] lemma setDone_user_id (u : Int) (gid : Nat) (g : Goal) :
    (setDone u gid g).user_id = g.user_id := by
  unfold setDone; split <;> rfl

@[simp] lemma setDone_text (u : Int) (gid : Nat) (g : Goal) :
    (setDone u gid g).text = g.text := by
  unfold setDone; split <;> rfl

@[simp] lemma setDone_created_at (u : Int) (gid : Nat) (g : Goal) :
    (setDone u gid g).created_at = g.created_at := by
  unfold setDone; split <;> rfl

/-- Operation `mark_done` preserves well-formedness. -/
lemma WF_mark_done {db : DB} (h : WF db) (u : Int) (gid : Nat) :
    WF (mark_done db u gid).1 := by
  obtain ⟨hp, hb⟩ := h
  constructor
  · rw [mark_done_goals, List.pairwise_map]
    exact hp.imp (by simp)
  · intro g hg
    rw [mark_done_goals] at hg
    rcases List.mem_map.mp hg with ⟨g₀, hg₀, rfl⟩
    simpa using hb g₀ hg₀

/-- Operation `delete_goal` preserves well-formedness. -/
lemma WF_delete_goal {db : DB} (h : WF db) (u : Int) (gid : Nat) :
    WF (delete_goal db u gid).1 := by
  obtain ⟨hp, hb⟩ := h
  exact ⟨hp.sublist (List.filter_sublist _),
    fun g hg => hb g (List.mem_of_mem_filter hg)⟩

/-- A map that fixes every element of a list is the identity on it. -/
lemma map_eq_self_of_eq {l : List Goal} {f : Goal → Goal}
    (h : ∀ g ∈ l, f g = g) : l.map f = l := by
  induction l with
  | nil => rfl
  | cons a t ih =>
    simp only [List.map_cons, h a (List.mem_cons_self a t),
      ih (fun g hg => h g (List.mem_cons_of_mem a hg))]

/-- Filtering for `p` after keeping only the rows violating `p` yields
nothing. -/
lemma filter_not_filter (l : List Goal) (p : Goal → Bool) :
    (l.filter (fun g => !p g)).filter p = [] := by
  induction l with
  | nil => rfl
  | cons a t ih => by_cases h : p a <;> simp [List.filter_cons, h, ih]

/-- Membership characterisation of `list_goals` on a well-formed store. -/
lemma mem_list_goals {db : DB} (hWF : WF db) {u : Int}
    {p : Nat × String × Bool} :
    p ∈ list_goals db u
      ↔ ∃ g ∈ db.goals, g.user_id = u ∧ p = (g.id, g.text, g.is_done) := by
  unfold list_goals
  rw [sortByIdDesc_of_ascending (hWF.1.sublist (List.filter_sublist _))]
  constructor
  · intro hp
    rcases List.mem_map.mp hp with ⟨g, hg, rfl⟩
    rcases List.mem_filter.mp (List.mem_reverse.mp hg) with ⟨hgl, hgu⟩
    exact ⟨g, hgl, by simpa using hgu, rfl⟩
  · rintro ⟨g, hgl, hgu, rfl⟩
    exact List.mem_map.mpr ⟨g, List.mem_reverse.mpr
      (List.mem_filter.mpr ⟨hgl, by simpa using hgu⟩), rfl⟩

/-! ## The claims -/

/-- C4: `createGoal(owner_id, text)` appends exactly one new record, with
`is_done = false` and `created_at` equal to the creation instant (hence no
earlier than the call's start time), and returns the newly assigned id,
which no pre-existing record carries. -/
theorem add_goal_spec (db : DB) (u : Int) (t : String) (now start : Nat)
    (hWF : WF db) (ht : t ≠ "") (hstart : start ≤ now) :
    (add_goal db u t now).2 = db.nextId ∧
    (add_goal db u t now).1.goals
      = db.goals ++ [⟨db.nextId, u, t, false, now⟩] ∧
    (∀ g ∈ db.goals, g.id ≠ (add_goal db u t now).2) ∧
    (∀ g ∈ (add_goal db u t now).1.goals, g ∉ db.goals →
      g.user_id = u ∧ g.text = t ∧ g.is_done = false ∧ g.created_at = now ∧
        start ≤ g.created_at) := by
  refine ⟨rfl, rfl, fun g hg => Nat.ne_of_lt (hWF.2 g hg), ?_⟩
  intro g hg hgnot
  rcases List.mem_append.mp hg with h | h
  · exact absurd h hgnot
  · rcases List.mem_singleton.mp h with rfl
    exact ⟨rfl, rfl, rfl, rfl, hstart⟩

theorem add_goal_spec_witness :
    WF ⟨[⟨0, 7, "first", false, 3⟩], 1⟩ ∧ ("second" : String) ≠ "" ∧ (4 : Nat) ≤ 5 ∧
    ((add_goal ⟨[⟨0, 7, "first", false, 3⟩], 1⟩ 7 "second" 5).2 = 1 ∧
     (add_goal ⟨[⟨0, 7, "first", false, 3⟩], 1⟩ 7 "second" 5).1.goals
       = [⟨0, 7, "first", false, 3⟩] ++ [⟨1, 7, "second", false, 5⟩] ∧
     (∀ g ∈ [(⟨0, 7, "first", false, 3⟩ : Goal)],
       g.id ≠ (add_goal ⟨[⟨0, 7, "first", false, 3⟩], 1⟩ 7 "second" 5).2) ∧
     (∀ g ∈ (add_goal ⟨[⟨0, 7, "first", false, 3⟩], 1⟩ 7 "second" 5).1.goals,
       g ∉ [(⟨0, 7, "first", false, 3⟩ : Goal)] →
       g.user_id = 7 ∧ g.text = "second" ∧ g.is_done = false ∧
         g.created_at = 5 ∧ 4 ≤ g.created_at)) :=
  ⟨by decide, by decide, by decide,
    add_goal_spec ⟨[⟨0, 7, "first", false, 3⟩], 1⟩ 7 "second" 5 4
      (by decide) (by decide) (by decide)⟩

/-- C1: ownership isolation.  For owners `A ≠ B` and any goal of `A` in the
store, `list_goals B` never returns a row with that goal's id, and
`mark_done B`/`delete_goal B` on that id affect 0 rows and leave the store
unchanged. -/
theorem ownership_isolation (db : DB) (A B : Int) (g : Goal)
    (hWF : WF db) (hAB : A ≠ B) (hg : g ∈ db.goals) (hgA : g.user_id = A) :
    (∀ p ∈ list_goals db B, p.1 ≠ g.id) ∧
    (mark_done db B g.id).2 = 0 ∧ (mark_done db B g.id).1 = db ∧
    (delete_goal db B g.id).2 = 0 ∧ (delete_goal db B g.id).1 = db := by
  have hnomatch : ∀ x ∈ db.goals, matchKey B g.id x = false := by
    intro x hx
    rw [Bool.eq_false_iff]
    intro hmx
    rcases matchKey_eq_true.mp hmx with ⟨hxid, hxu⟩
    have : x = g := mem_id_inj hWF.1 hg hx hxid
    exact hAB (by rw [← hgA, ← this, hxu])
  have hanyf : db.goals.any (matchKey B g.id) = false := by
    rw [Bool.eq_false_iff]
    intro hany
    rcases List.any_eq_true.mp hany with ⟨x, hx, hmx⟩
    exact absurd hmx (by rw [hnomatch x hx]; exact Bool.false_ne_true)
  refine ⟨?_, ?_, ?_, ?_, ?_⟩
  · intro p hp hpid
    rcases (mem_list_goals hWF).mp hp with ⟨x, hx, hxu, rfl⟩
    have : x = g := mem_id_inj hWF.1 hg hx hpid
    exact hAB (by rw [← hgA, ← this, hxu])
  · rw [show (mark_done db B g.id).2
        = (db.goals.filter (matchKey B g.id)).length from rfl,
      filter_matchKey_length hWF.1, hanyf]
    rfl
  · show (⟨db.goals.map (setDone B g.id), db.nextId⟩ : DB)
      = ⟨db.goals, db.nextId⟩
    rw [map_eq_self_of_eq (fun x hx => by
      unfold setDone
      rw [hnomatch x hx]
      rfl)]
  · rw [show (delete_goal db B g.id).2
        = (db.goals.filter (matchKey B g.id)).length from rfl,
      filter_matchKey_length hWF.1, hanyf]
    rfl
  · show (⟨db.goals.filter (fun x => !matchKey B g.id x), db.nextId⟩ : DB)
      = ⟨db.goals, db.nextId⟩
    rw [List.filter_eq_self.mpr (fun x hx => by rw [hnomatch x hx]; rfl)]

theorem ownership_isolation_witness :
    WF ⟨[⟨0, 1, "goal of A", false, 0⟩], 1⟩ ∧ (1 : Int) ≠ 2 ∧
    (⟨0, 1, "goal of A", false, 0⟩ : Goal) ∈
      [(⟨0, 1, "goal of A", false, 0⟩ : Goal)] ∧
    (Goal.user_id ⟨0, 1, "goal of A", false, 0⟩ = 1) ∧
    ((∀ p ∈ list_goals ⟨[⟨0, 1, "goal of A", false, 0⟩], 1⟩ 2,
        p.1 ≠ Goal.id ⟨0, 1, "goal of A", false, 0⟩) ∧
     (mark_done ⟨[⟨0, 1, "goal of A", false, 0⟩], 1⟩ 2
        (Goal.id ⟨0, 1, "goal of A", false, 0⟩)).2 = 0 ∧
     (mark_done ⟨[⟨0, 1, "goal of A", false, 0⟩], 1⟩ 2
        (Goal.id ⟨0, 1, "goal of A", false, 0⟩)).1
        = ⟨[⟨0, 1, "goal of A", false, 0⟩], 1⟩ ∧
     (delete_goal ⟨[⟨0, 1, "goal of A", false, 0⟩], 1⟩ 2
        (Goal.id ⟨0, 1, "goal of A", false, 0⟩)).2 = 0 ∧
     (delete_goal ⟨[⟨0, 1, "goal of A", false, 0⟩], 1⟩ 2
        (Goal.id ⟨0, 1, "goal of A", false, 0⟩)).1
        = ⟨[⟨0, 1, "goal of A", false, 0⟩], 1⟩) :=
  ⟨by decide, by decide, by decide, by decide,
    ownership_isolation ⟨[⟨0, 1, "goal of A", false, 0⟩], 1⟩ 1 2
      ⟨0, 1, "goal of A", false, 0⟩ (by decide) (by decide) (by decide) rfl⟩

/-- C10: `mark_done` and `delete_goal` affect at most one row; they affect
exactly one iff a goal with that id owned by that owner exists; and once
`delete_goal` has run on an id, both operations on that id affect 0 rows. -/
theorem affected_count_spec (db : DB) (u : Int) (gid : Nat) (hWF : WF db) :
    (mark_done db u gid).2 ≤ 1 ∧ (delete_goal db u gid).2 ≤ 1 ∧
    ((mark_done db u gid).2 = 1 ↔ ∃ g ∈ db.goals, g.id = gid ∧ g.user_id = u) ∧
    ((delete_goal db u gid).2 = 1
      ↔ ∃ g ∈ db.goals, g.id = gid ∧ g.user_id = u) ∧
    (mark_done (delete_goal db u gid).1 u gid).2 = 0 ∧
    (delete_goal (delete_goal db u gid).1 u gid).2 = 0 := by
  have hlen : (db.goals.filter (matchKey u gid)).length
      = if db.goals.any (matchKey u gid) then 1 else 0 :=
    filter_matchKey_length hWF.1 u gid
  have hiff : db.goals.any (matchKey u gid) = true
      ↔ ∃ g ∈ db.goals, g.id = gid ∧ g.user_id = u := by
    rw [List.any_eq_true]
    constructor
    · rintro ⟨g, hg, hm⟩
      exact ⟨g, hg, matchKey_eq_true.mp hm⟩
    · rintro ⟨g, hg, h1, h2⟩
      exact ⟨g, hg, matchKey_eq_true.mpr ⟨h1, h2⟩⟩
  have hmark : (mark_done db u gid).2
      = if db.goals.any (matchKey u gid) then 1 else 0 := hlen
  have hdel : (delete_goal db u gid).2
      = if db.goals.any (matchKey u gid) then 1 else 0 := hlen
  have hzero : ((delete_goal db u gid).1.goals.filter (matchKey u gid)).length
      = 0 := by
    rw [show (delete_goal db u gid).1.goals
        = db.goals.filter (fun g => !matchKey u gid g) from rfl,
      filter_not_filter]
    rfl
  refine ⟨?_, ?_, ?_, ?_, hzero, hzero⟩
  · rw [hmark]; split <;> omega
  · rw [hdel]; split <;> omega
  · rw [hmark]
    constructor
    · intro h
      by_cases hb : db.goals.any (matchKey u gid) = true
      · exact hiff.mp hb
      · rw [if_neg hb] at h; cases h
    · intro h
      rw [if_pos (hiff.mpr h)]
  · rw [hdel]
    constructor
    · intro h
      by_cases hb : db.goals.any (matchKey u gid) = true
      · exact hiff.mp hb
      · rw [if_neg hb] at h; cases h
    · intro h
      rw [if_pos (hiff.mpr h)]

theorem affected_count_spec_witness :
    WF ⟨[⟨0, 1, "a", false, 0⟩], 1⟩ ∧
    ((mark_done ⟨[⟨0, 1, "a", false, 0⟩], 1⟩ 1 0).2 ≤ 1 ∧
     (delete_goal ⟨[⟨0, 1, "a", false, 0⟩], 1⟩ 1 0).2 ≤ 1 ∧
     ((mark_done ⟨[⟨0, 1, "a", false, 0⟩], 1⟩ 1 0).2 = 1
       ↔ ∃ g ∈ [(⟨0, 1, "a", false, 0⟩ : Goal)], g.id = 0 ∧ g.user_id = 1) ∧
     ((delete_goal ⟨[⟨0, 1, "a", false, 0⟩], 1⟩ 1 0).2 = 1
       ↔ ∃ g ∈ [(⟨0, 1, "a", false, 0⟩ : Goal)], g.id = 0 ∧ g.user_id = 1) ∧
     (mark_done (delete_goal ⟨[⟨0, 1, "a", false, 0⟩], 1⟩ 1 0).1 1 0).2 = 0 ∧
     (delete_goal (delete_goal ⟨[⟨0, 1, "a", false, 0⟩], 1⟩ 1 0).1 1 0).2 = 0) :=
  ⟨by decide, affected_count_spec ⟨[⟨0, 1, "a", false, 0⟩], 1⟩ 1 0 (by decide)⟩

/-- Update `setDone` leaves the verdict of the WHERE clause unchanged. -/
lemma matchKey_setDone (u : Int) (gid : Nat) (g : Goal) :
    matchKey u gid (setDone u gid g) = matchKey u gid g := by
  unfold matchKey
  rw [setDone_id, setDone_user_id]

/-- A matched row is done after `setDone`. -/
lemma setDone_is_done_of_match {u : Int} {gid : Nat} {g : Goal}
    (h : matchKey u gid g = true) : (setDone u gid g).is_done = true := by
  unfold setDone
  rw [if_pos h]

/-- A done row stays done under `setDone`. -/
lemma setDone_keeps_done {u : Int} {gid : Nat} {g : Goal}
    (h : g.is_done = true) : (setDone u gid g).is_done = true := by
  unfold setDone
  split
  · rfl
  · exact h

/-- C5: `markDone` is idempotent in result and count: on an existing
(owner, id) pair it returns 1, returns 1 again when repeated, and the goal
is done after each of the two calls. -/
theorem mark_done_idempotent (db : DB) (u : Int) (gid : Nat) (hWF : WF db)
    (hex : ∃ g ∈ db.goals, g.id = gid ∧ g.user_id = u) :
    (mark_done db u gid).2 = 1 ∧
    (mark_done (mark_done db u gid).1 u gid).2 = 1 ∧
    (∀ g ∈ (mark_done db u gid).1.goals, g.id = gid → g.is_done = true) ∧
    (∀ g ∈ (mark_done (mark_done db u gid).1 u gid).1.goals,
      g.id = gid → g.is_done = true) := by
  rcases hex with ⟨gw, hgw, hgwid, hgwu⟩
  have hm : matchKey u gid gw = true := matchKey_eq_true.mpr ⟨hgwid, hgwu⟩
  have hany : db.goals.any (matchKey u gid) = true :=
    List.any_eq_true.mpr ⟨gw, hgw, hm⟩
  have hcount1 : (mark_done db u gid).2 = 1 := by
    rw [show (mark_done db u gid).2
        = (db.goals.filter (matchKey u gid)).length from rfl,
      filter_matchKey_length hWF.1, if_pos hany]
  have hWF1 : WF (mark_done db u gid).1 := WF_mark_done hWF u gid
  have hany1 : (mark_done db u gid).1.goals.any (matchKey u gid) = true := by
    refine List.any_eq_true.mpr ⟨setDone u gid gw, ?_, ?_⟩
    · rw [mark_done_goals]
      exact List.mem_map.mpr ⟨gw, hgw, rfl⟩
    · rw [matchKey_setDone]
      exact hm
  have hcount2 : (mark_done (mark_done db u gid).1 u gid).2 = 1 := by
    rw [show (mark_done (mark_done db u gid).1 u gid).2
        = ((mark_done db u gid).1.goals.filter (matchKey u gid)).length from rfl,
      filter_matchKey_length hWF1.1, if_pos hany1]
  have hdone1 : ∀ g ∈ (mark_done db u gid).1.goals,
      g.id = gid → g.is_done = true := by
    intro g hg hgid
    rw [mark_done_goals] at hg
    rcases List.mem_map.mp hg with ⟨g₀, hg₀, rfl⟩
    have hid₀ : g₀.id = gid := by rw [← setDone_id u gid g₀]; exact hgid
    have : g₀ = gw := mem_id_inj hWF.1 hgw hg₀ (hid₀.trans hgwid.symm)
    exact setDone_is_done_of_match (this ▸ hm)
  refine ⟨hcount1, hcount2, hdone1, ?_⟩
  intro g hg hgid
  rw [show (mark_done (mark_done db u gid).1 u gid).1.goals
      = (mark_done db u gid).1.goals.map (setDone u gid) from rfl] at hg
  rcases List.mem_map.mp hg with ⟨g₁, hg₁, rfl⟩
  have hid₁ : g₁.id = gid := by rw [← setDone_id u gid g₁]; exact hgid
  exact setDone_keeps_done (hdone1 g₁ hg₁ hid₁)

theorem mark_done_idempotent_witness :
    WF ⟨[⟨0, 7, "a", false, 0⟩], 1⟩ ∧
    (∃ g ∈ [(⟨0, 7, "a", false, 0⟩ : Goal)], g.id = 0 ∧ g.user_id = 7) ∧
    ((mark_done ⟨[⟨0, 7, "a", false, 0⟩], 1⟩ 7 0).2 = 1 ∧
     (mark_done (mark_done ⟨[⟨0, 7, "a", false, 0⟩], 1⟩ 7 0).1 7 0).2 = 1 ∧
     (∀ g ∈ (mark_done ⟨[⟨0, 7, "a", false, 0⟩], 1⟩ 7 0).1.goals,
       g.id = 0 → g.is_done = true) ∧
     (∀ g ∈ (mark_done (mark_done ⟨[⟨0, 7, "a", false, 0⟩], 1⟩ 7 0).1 7 0).1.goals,
       g.id = 0 → g.is_done = true)) :=
  ⟨by decide, by decide,
    mark_done_idempotent ⟨[⟨0, 7, "a", false, 0⟩], 1⟩ 7 0 (by decide) (by decide)⟩

/-- C2: immutability frame.  Whatever store operation runs, a row that keeps
its id keeps its `text`, `owner_id` and `created_at`; and `is_done` never
moves back from `true` to `false`. -/
theorem goal_fields_immutable (db : DB) (op : StoreOp) (g g' : Goal)
    (hWF : WF db) (hg : g ∈ db.goals) (hg' : g' ∈ (applyOp db op).goals)
    (hid : g'.id = g.id) :
    g'.text = g.text ∧ g'.user_id = g.user_id ∧
    g'.created_at = g.created_at ∧
    (g.is_done = true → g'.is_done = true) := by
  cases op with
  | add u t n =>
    rcases List.mem_append.mp hg' with h | h
    · rcases mem_id_inj hWF.1 hg h hid with rfl
      exact ⟨rfl, rfl, rfl, fun h => h⟩
    · rcases List.mem_singleton.mp h with rfl
      exact absurd (hid ▸ hWF.2 g hg) (lt_irrefl _)
  | mark u gid =>
    rw [show (applyOp db (.mark u gid)).goals
        = db.goals.map (setDone u gid) from rfl] at hg'
    rcases List.mem_map.mp hg' with ⟨g₀, hg₀, rfl⟩
    have hid₀ : g₀.id = g.id := by rw [← setDone_id u gid g₀]; exact hid
    rcases mem_id_inj hWF.1 hg hg₀ hid₀ with rfl
    exact ⟨setDone_text u gid g₀, setDone_user_id u gid g₀,
      setDone_created_at u gid g₀, fun h => setDone_keeps_done h⟩
  | del u gid =>
    have h : g' ∈ db.goals := List.mem_of_mem_filter hg'
    rcases mem_id_inj hWF.1 hg h hid with rfl
    exact ⟨rfl, rfl, rfl, fun h => h⟩

theorem goal_fields_immutable_witness :
    WF ⟨[⟨0, 7, "a", false, 4⟩], 1⟩ ∧
    (⟨0, 7, "a", false, 4⟩ : Goal) ∈ [(⟨0, 7, "a", false, 4⟩ : Goal)] ∧
    (⟨0, 7, "a", true, 4⟩ : Goal)
      ∈ (applyOp ⟨[⟨0, 7, "a", false, 4⟩], 1⟩ (.mark 7 0)).goals ∧
    Goal.id ⟨0, 7, "a", true, 4⟩ = Goal.id ⟨0, 7, "a", false, 4⟩ ∧
    (Goal.text ⟨0, 7, "a", true, 4⟩ = Goal.text ⟨0, 7, "a", false, 4⟩ ∧
     Goal.user_id ⟨0, 7, "a", true, 4⟩ = Goal.user_id ⟨0, 7, "a", false, 4⟩ ∧
     Goal.created_at ⟨0, 7, "a", true, 4⟩ = Goal.created_at ⟨0, 7, "a", false, 4⟩ ∧
     (Goal.is_done ⟨0, 7, "a", false, 4⟩ = true →
       Goal.is_done ⟨0, 7, "a", true, 4⟩ = true)) :=
  ⟨by decide, by decide, by decide, by decide,
    goal_fields_immutable ⟨[⟨0, 7, "a", false, 4⟩], 1⟩ (.mark 7 0)
      ⟨0, 7, "a", false, 4⟩ ⟨0, 7, "a", true, 4⟩
      (by decide) (by decide) (by decide) (by decide)⟩

/-- C3: `listGoals(owner_id)` returns exactly the goals owned by `owner_id`,
ordered by id descending; it is empty (not an error) when the owner has no
goals; and after creating goals g1, g2, g3 in that order for an owner with
no previous goals it returns [g3, g2, g1]. -/
theorem list_goals_spec (db : DB) (u : Int) (hWF : WF db) :
    (∀ p, p ∈ list_goals db u
      ↔ ∃ g ∈ db.goals, g.user_id = u ∧ p = (g.id, g.text, g.is_done)) ∧
    (list_goals db u).Pairwise (fun p q => q.1 < p.1) ∧
    ((∀ g ∈ db.goals, g.user_id ≠ u) → list_goals db u = []) ∧
    (∀ t1 t2 t3 n1 n2 n3 : _, (∀ g ∈ db.goals, g.user_id ≠ u) →
      list_goals
          (add_goal (add_goal (add_goal db u t1 n1).1 u t2 n2).1 u t3 n3).1 u
        = [((add_goal (add_goal (add_goal db u t1 n1).1 u t2 n2).1 u t3 n3).2,
              t3, false),
           ((add_goal (add_goal db u t1 n1).1 u t2 n2).2, t2, false),
           ((add_goal db u t1 n1).2, t1, false)]) := by
  have hpf : (db.goals.filter (fun g => g.user_id == u)).Pairwise
      (fun a b => a.id < b.id) := hWF.1.sublist (List.filter_sublist _)
  refine ⟨fun p => mem_list_goals hWF, ?_, ?_, ?_⟩
  · unfold list_goals
    rw [sortByIdDesc_of_ascending hpf, List.pairwise_map, List.pairwise_reverse]
    exact hpf
  · intro hnone
    unfold list_goals
    rw [List.filter_eq_nil_iff.mpr (fun g hg => by simpa using hnone g hg)]
    rfl
  · intro t1 t2 t3 n1 n2 n3 hnone
    have hdbnil : db.goals.filter (fun g => g.user_id == u) = [] :=
      List.filter_eq_nil_iff.mpr (fun g hg => by simpa using hnone g hg)
    have hgoals :
        (add_goal (add_goal (add_goal db u t1 n1).1 u t2 n2).1 u t3 n3).1.goals
          = db.goals ++ [⟨db.nextId, u, t1, false, n1⟩]
            ++ [⟨db.nextId + 1, u, t2, false, n2⟩]
            ++ [⟨db.nextId + 2, u, t3, false, n3⟩] := by
      simp [add_goal]
    have hfil :
        ((add_goal (add_goal (add_goal db u t1 n1).1 u t2 n2).1 u t3 n3).1.goals.filter
            (fun g => g.user_id == u))
          = [⟨db.nextId, u, t1, false, n1⟩, ⟨db.nextId + 1, u, t2, false, n2⟩,
             ⟨db.nextId + 2, u, t3, false, n3⟩] := by
      rw [hgoals, List.filter_append, List.filter_append, List.filter_append,
        hdbnil]
      simp
    have hpw : ([⟨db.nextId, u, t1, false, n1⟩, ⟨db.nextId + 1, u, t2, false, n2⟩,
        ⟨db.nextId + 2, u, t3, false, n3⟩] : List Goal).Pairwise
          (fun a b => a.id < b.id) := by
      refine List.Pairwise.cons ?_ (List.Pairwise.cons ?_
        (List.pairwise_singleton _ _))
      · intro b hb
        rcases List.mem_cons.mp hb with rfl | hb
        · show db.nextId < db.nextId + 1
          omega
        · rcases List.mem_singleton.mp hb with rfl
          show db.nextId < db.nextId + 2
          omega
      · intro b hb
        rcases List.mem_singleton.mp hb with rfl
        show db.nextId + 1 < db.nextId + 2
        omega
    unfold list_goals
    rw [hfil, sortByIdDesc_of_ascending hpw]
    simp [add_goal]

theorem list_goals_spec_witness :
    WF ⟨[⟨0, 9, "other owner", false, 0⟩], 1⟩ ∧
    ((∀ p, p ∈ list_goals ⟨[⟨0, 9, "other owner", false, 0⟩], 1⟩ 7
      ↔ ∃ g ∈ [(⟨0, 9, "other owner", false, 0⟩ : Goal)],
          g.user_id = 7 ∧ p = (g.id, g.text, g.is_done)) ∧
     (list_goals ⟨[⟨0, 9, "other owner", false, 0⟩], 1⟩ 7).Pairwise
        (fun p q => q.1 < p.1) ∧
     ((∀ g ∈ [(⟨0, 9, "other owner", false, 0⟩ : Goal)], g.user_id ≠ 7) →
        list_goals ⟨[⟨0, 9, "other owner", false, 0⟩], 1⟩ 7 = []) ∧
     (∀ t1 t2 t3 n1 n2 n3 : _,
       (∀ g ∈ [(⟨0, 9, "other owner", false, 0⟩ : Goal)], g.user_id ≠ 7) →
       list_goals
           (add_goal (add_goal
             (add_goal ⟨[⟨0, 9, "other owner", false, 0⟩], 1⟩ 7 t1 n1).1
             7 t2 n2).1 7 t3 n3).1 7
         = [((add_goal (add_goal
               (add_goal ⟨[⟨0, 9, "other owner", false, 0⟩], 1⟩ 7 t1 n1).1
               7 t2 n2).1 7 t3 n3).2, t3, false),
            ((add_goal
               (add_goal ⟨[⟨0, 9, "other owner", false, 0⟩], 1⟩ 7 t1 n1).1
               7 t2 n2).2, t2, false),
            ((add_goal ⟨[⟨0, 9, "other owner", false, 0⟩], 1⟩ 7 t1 n1).2,
              t1, false)])) :=
  ⟨by decide, list_goals_spec ⟨[⟨0, 9, "other owner", false, 0⟩], 1⟩ 7 (by decide)⟩

/-- C6: the claim is right about the intent but the code has a slip.  The
empty-argument and plainly-non-digit cases do behave as claimed — shown
here for the all-whitespace argument "   " to `/ask` and `/addgoal` and for
the argument "-5" to `/done` and `/del`, which produce exactly the usage
hint with no completion request and no store change.  But the guard in
src/bot.py:155/163 is Python `str.isdigit`, which accepts Numeric_Type
Digit characters such as "²" (U+00B2, superscript two) that `int()` rejects
(`decimalVal` has no value for it), so on `/done ²` or `/del ²` the handler
raises an uncaught ValueError — no usage hint, no reply, no local recovery
— contradicting the claim and spec §4.3/§7 ("never silence or a crash").
Evaluated here on the failing input "²". -/
theorem done_unicode_digit_raises :
    (cmd_ask (fun _ => Except.error ()) ⟨[⟨0, 7, "a", false, 0⟩], 1⟩ (some "   ")
      = ⟨⟨[⟨0, 7, "a", false, 0⟩], 1⟩, [askUsage], []⟩ ∧
     cmd_addgoal ⟨[⟨0, 7, "a", false, 0⟩], 1⟩ 7 (some "   ") 5
      = ⟨⟨[⟨0, 7, "a", false, 0⟩], 1⟩, [addgoalUsage], []⟩ ∧
     cmd_done ⟨[⟨0, 7, "a", false, 0⟩], 1⟩ 7 (some "-5")
      = .ok ⟨⟨[⟨0, 7, "a", false, 0⟩], 1⟩, [doneUsage], []⟩ ∧
     cmd_del ⟨[⟨0, 7, "a", false, 0⟩], 1⟩ 7 (some "-5")
      = .ok ⟨⟨[⟨0, 7, "a", false, 0⟩], 1⟩, [delUsage], []⟩) ∧
    (pyIsDigit "²" = true ∧ pyInt "²" = none ∧
     cmd_done ⟨[⟨0, 7, "a", false, 0⟩], 1⟩ 7 (some "²") = .error () ∧
     cmd_del ⟨[⟨0, 7, "a", false, 0⟩], 1⟩ 7 (some "²") = .error ()) := by
  decide

/-- C7: the completion client never propagates a remote failure.  If every
remote call fails, `ask_openai` returns the fixed apology string, and a
`/ask` turn still produces replies — the usage hint on an empty question,
and otherwise the "thinking" notice followed by the apology. -/
theorem remote_failure_yields_apology
    (remote : CompletionRequest → Except Unit String) (db : DB)
    (p : String) (args : Option String)
    (hfail : ∀ r, remote r = Except.error ()) :
    ask_openai remote p = apology ∧
    (cmd_ask remote db args).replies ≠ [] ∧
    (stripStr (args.getD "") ≠ "" →
      (cmd_ask remote db args).replies = [thinkingNotice, apology] ∧
      apology ∈ (cmd_ask remote db args).replies) := by
  have hask : ∀ q, ask_openai remote q = apology := by
    intro q
    unfold ask_openai
    rw [hfail]
  refine ⟨hask p, ?_, ?_⟩
  · unfold cmd_ask
    by_cases h : stripStr (args.getD "") = ""
    · rw [if_pos h]
      simp
    · rw [if_neg h]
      simp
  · intro h
    unfold cmd_ask
    rw [if_neg h, hask]
    exact ⟨rfl, by simp⟩

theorem remote_failure_yields_apology_witness :
    (∀ r, (fun _ : CompletionRequest => Except.error ()) r
      = (Except.error () : Except Unit String)) ∧
    (ask_openai (fun _ => Except.error ()) "hello" = apology ∧
     (cmd_ask (fun _ => Except.error ()) ⟨[], 0⟩ (some "hello")).replies ≠ [] ∧
     (stripStr ((some "hello").getD "") ≠ "" →
       (cmd_ask (fun _ => Except.error ()) ⟨[], 0⟩ (some "hello")).replies
         = [thinkingNotice, apology] ∧
       apology ∈ (cmd_ask (fun _ => Except.error ()) ⟨[], 0⟩
         (some "hello")).replies)) :=
  ⟨fun _ => rfl,
   remote_failure_yields_apology (fun _ => Except.error ()) ⟨[], 0⟩ "hello"
     (some "hello") (fun _ => rfl)⟩

/-- C8 as stated is false: the fixed system instruction of `ask_openai`
never contains the phrase "answer concisely in the user\x27s language unless
asked otherwise" (not even case-insensitively) — it pins the language to
Ukrainian instead.  Shown on the concrete prompt "hi". -/
theorem ask_request_not_users_language :
    ¬ (∀ m ∈ (buildRequest "hi").messages, m.role = "system" →
        containsStr (lowerStr m.content)
          (lowerStr "answer concisely in the user\x27s language unless asked otherwise")
          = true) := by
  intro h
  have hm : (⟨"system", systemPrompt⟩ : ChatMessage)
      ∈ (buildRequest "hi").messages := by
    unfold buildRequest
    exact List.mem_cons_self _ _
  have := h ⟨"system", systemPrompt⟩ hm rfl
  exact absurd this (by decide)

/-- C8 (amended): for every prompt the completion client builds exactly a
two-message exchange — the fixed system instruction (assistant persona plus
"Answer concisely in Ukrainian unless asked otherwise") and the
caller-supplied prompt as the user turn — and invokes the endpoint with the
bounded response length `max_tokens = 600` and the low sampling temperature
`0.3`. -/
theorem ask_request_spec (prompt : String) :
    (buildRequest prompt).messages
      = [⟨"system", systemPrompt⟩, ⟨"user", prompt⟩] ∧
    containsStr systemPrompt
      "Answer concisely in Ukrainian unless asked otherwise" = true ∧
    (buildRequest prompt).max_tokens = some 600 ∧
    (buildRequest prompt).temperature = some ((3 : Rat) / 10) ∧
    ((3 : Rat) / 10) < 1 :=
  ⟨rfl, by decide, rfl, rfl, by norm_num⟩

/-- C9: the duplicated trailing `/ask` registration (`ask_ai`) is dead code:
dispatch never selects it — the catch-all `handle_buttons` (and for `/ask`
texts the earlier `cmd_ask`) always wins — so every inbound message is
processed exactly as in the program with the trailing block removed. -/
theorem dead_ask_block_unreachable
    (remote : CompletionRequest → Except Unit String) (m : Msg) (db : DB)
    (now : Nat) :
    dispatch registeredHandlers m.text ≠ some HandlerTag.ask2 ∧
    step registeredHandlers remote m db now
      = step handlersWithoutDead remote m db now := by
  have hbtn : (handlersWithoutDead.find? (fun h => filterOf h m.text)).isSome := by
    rw [List.find?_isSome]
    exact ⟨HandlerTag.buttons, by decide, rfl⟩
  have hd : dispatch registeredHandlers m.text
      = dispatch handlersWithoutDead m.text := by
    have hsplit : registeredHandlers
        = handlersWithoutDead ++ [HandlerTag.ask2] := rfl
    unfold dispatch
    rw [hsplit, List.find?_append]
    rcases ho : handlersWithoutDead.find? (fun h => filterOf h m.text) with _ | a
    · rw [ho] at hbtn
      cases hbtn
    · rfl
  constructor
  · rw [hd]
    intro h
    have hmem : HandlerTag.ask2 ∈ handlersWithoutDead :=
      List.mem_of_find?_eq_some h
    exact absurd hmem (by decide)
  · unfold step
    rw [hd]

end UnityPlan
